import Mathlib

/-!
Shallow embedding of `src/strava.py` (a lazy-loading client for the Strava
v1 HTTP/JSON API) and proofs about its caching, error-propagation and
accessor behaviour.

Modelling conventions:
* Decoded JSON values are the inductive `Json`; Python dicts appear as
  association lists whose lookup takes the first matching key.
* JSON numbers are modelled as integers (`Int`); no claim depends on
  fractional values and Python float arithmetic on them is exact addition
  in the ranges involved.
* The HTTP transport (`urllib`) is a black box: a function from the URL path
  to a transport response.  A response is either an `HTTPError` (non-2xx,
  caught by `StravaObject.load`), a `URLError` (connection-level failure,
  NOT caught by `load` — Python only catches `HTTPError`), or a 2xx body.
  A 2xx body carries `some j` when its text parses as the JSON value `j`,
  and `none` when `json.loads` would raise `ValueError`.
* Python exceptions are the inductive `PyErr`; fallible code returns
  `Except PyErr _`.  Property accessors that mutate their object
  (the lazy-loading ones) return the result, the updated object, and the
  list of URLs fetched during the access, in that order.
* The Python 3 branch of the version check in `load` is the one embedded
  (the Python 2 branch has the same catch structure).
-/

/-- A decoded JSON value (`json.loads` output). Objects are association
lists; Python-dict lookup takes the first matching key. -/
inductive Json where
  | null : Json
  | bool (b : Bool) : Json
  | num (n : Int) : Json
  | str (s : String) : Json
  | arr (xs : List Json) : Json
  | obj (kvs : List (String × Json)) : Json

/-- First-match association-list lookup, the embedding of Python dict
subscripting / `in` tests on decoded objects. -/
def lookupKV : List (String × Json) → String → Option Json
  | [], _ => none
  | (k, v) :: rest, key => if k = key then some v else lookupKV rest key

mutual
/-- Python `repr` of a decoded JSON value (used by `%s` formatting for
non-string values). String quoting is single quotes, as in Python. -/
def Json.pyRepr : Json → String
  | .null => "None"
  | .bool true => "True"
  | .bool false => "False"
  | .num n => toString n
  | .str s => "\x27" ++ s ++ "\x27"
  | .arr xs => "[" ++ Json.pyReprList xs ++ "]"
  | .obj kvs => "\x7b" ++ Json.pyReprKVs kvs ++ "\x7d"

/-- Comma-separated `repr` of list elements. -/
def Json.pyReprList : List Json → String
  | [] => ""
  | [x] => Json.pyRepr x
  | x :: y :: rest => Json.pyRepr x ++ ", " ++ Json.pyReprList (y :: rest)

/-- Comma-separated `repr` of dict entries. -/
def Json.pyReprKVs : List (String × Json) → String
  | [] => ""
  | [(k, v)] => "\x27" ++ k ++ "\x27: " ++ Json.pyRepr v
  | (k, v) :: e :: rest =>
      "\x27" ++ k ++ "\x27: " ++ Json.pyRepr v ++ ", " ++ Json.pyReprKVs (e :: rest)
end

/-- Python `str` of a decoded JSON value, as interpolated by `"%s" % value`
when building URLs from ids. -/
def Json.pyStr : Json → String
  | .str s => s
  | v => v.pyRepr

mutual
/-- Python `==` on decoded JSON values. (Dict comparison is modelled on the
association lists; decoded objects compared by the client are ids, i.e.
numbers or strings, for which this is exact.) -/
def Json.beq : Json → Json → Bool
  | .null, .null => true
  | .bool a, .bool b => a = b
  | .num a, .num b => a = b
  | .str a, .str b => a = b
  | .arr a, .arr b => Json.beqList a b
  | .obj a, .obj b => Json.beqKVs a b
  | _, _ => false

/-- Elementwise `==` on JSON lists. -/
def Json.beqList : List Json → List Json → Bool
  | [], [] => true
  | a :: as', b :: bs' => Json.beq a b && Json.beqList as' bs'
  | _, _ => false

/-- Entrywise `==` on JSON object entries. -/
def Json.beqKVs : List (String × Json) → List (String × Json) → Bool
  | [], [] => true
  | (ka, va) :: as', (kb, vb) :: bs' =>
      (ka = kb : Bool) && Json.beq va vb && Json.beqKVs as' bs'
  | _, _ => false
end

instance : BEq Json := ⟨Json.beq⟩

/-- The Python exceptions the client can raise. `apiError` is the unified
`APIError` of `strava.py`; the others are built-in Python exceptions that
escape because nothing catches them. -/
inductive PyErr where
  | apiError (msg : String) : PyErr
  | urlError (msg : String) : PyErr
  | typeError (msg : String) : PyErr
  | keyError (key : String) : PyErr
deriving Repr, DecidableEq

/-- Python subscripting `value[key]` with a string key: dict lookup
(`KeyError` when absent), `TypeError` on any non-dict value. -/
def Json.getItem : Json → String → Except PyErr Json
  | .obj kvs, key =>
      match lookupKV kvs key with
      | some v => .ok v
      | none => .error (.keyError key)
  | _, _ => .error (.typeError "value is not subscriptable by a string key")

/-- One transport response for a URL, as seen by `urllib.request.urlopen`
followed by `json.loads`. -/
inductive TResp where
  /-- Non-2xx HTTP status: `urllib.error.HTTPError`, caught by `load`. -/
  | httpError (msg : String) : TResp
  /-- Connection-level failure: `urllib.error.URLError`, not an
  `HTTPError`, hence not caught by `load`. -/
  | urlError (msg : String) : TResp
  /-- 2xx body; `some j` when the text parses as `j`, `none` when
  `json.loads` raises `ValueError`. -/
  | body (decoded : Option Json) : TResp

/-- The transport: URL path (relative to the fixed base endpoint) to
response. -/
def Transport : Type := String → TResp

/-- Method `StravaObject.load(url, key)`: one GET, JSON decode, optional top-level
key selection.  `HTTPError`, `ValueError` and `KeyError` become `APIError`;
`URLError` and the `TypeError` from subscripting a non-dict body escape
unchanged. -/
def load (tp : Transport) (url : String) (key : Option String) :
    Except PyErr Json :=
  match tp url with
  | .urlError e => .error (.urlError e)
  | .httpError e => .error (.apiError (url ++ ": request failed: " ++ e))
  | .body none =>
      .error (.apiError (url ++ ": parsing response failed: ValueError"))
  | .body (some j) =>
      match key with
      | none => .ok j
      | some k =>
          match j with
          | .obj kvs =>
              match lookupKV kvs k with
              | some v => .ok v
              | none =>
                  .error (.apiError
                    (url ++ ": parsing response failed: KeyError: " ++ k))
          | _ => .error (.typeError "value is not subscriptable by a string key")

/-- Class `RideDetail`: identity plus the snapshot fetched from `/rides/<id>` under
key `"ride"`. -/
structure RideDetail where
  oid : Json
  attr : Json

/-- Class `RideStream`: identity plus the snapshot fetched from `/streams/<id>`
(whole body, no key). -/
structure RideStream where
  oid : Json
  attr : Json

/-- Class `SegmentDetail`: identity (the route/segment id) plus the two snapshots
fetched from `/efforts/<effortId>` and `/segments/<segmentId>`. -/
structure SegmentDetail where
  oid : Json
  effort_attr : Json
  segment_attr : Json

/-- Class `Segment`: built in memory from one efforts-listing entry. `oid` is the
effort id; `seg` is the embedded `"segment"` object; `time` the embedded
`"elapsed_time"`. `det` is the lazily loaded `SegmentDetail`
(`None` until first successful access). -/
structure Segment where
  oid : Json
  seg : Json
  time : Json
  det : Option SegmentDetail

/-- Class `Ride`: id and name from the athlete's listing; the three lazily loaded
sub-resources. `segs = []` is Python's `self._segments = []`, which doubles
as the not-yet-loaded sentinel (`if not self._segments`). -/
structure Ride where
  oid : Json
  name : Json
  det : Option RideDetail
  segs : List Segment
  strm : Option RideStream

/-- Class `Athlete`: id and the listing URL precomputed in `__init__`. -/
structure Athlete where
  oid : Json
  url : String

/-- Constructor `Athlete(oid)`. -/
def Athlete.make (oid : Json) : Athlete :=
  ⟨oid, "/rides?athleteId=" ++ oid.pyStr⟩

/-- A calendar date, by proleptic day ordinal; `isoformat` is modelled as
the (injective) decimal rendering of the ordinal, standing in for the
ISO yyyy-mm-dd text — no claim depends on the concrete date text. -/
structure Date where
  ordinal : Int
deriving Repr, DecidableEq

/-- Method `date.isoformat()` (see `Date`). -/
def Date.isoformat (d : Date) : String := toString d.ordinal

/-- Subtraction `d - timedelta(days = n)`. -/
def Date.subDays (d : Date) (n : Int) : Date := ⟨d.ordinal - n⟩

/-- Constructor `RideDetail.__init__`: the single fetch `/rides/<oid>` keyed `"ride"`.
Returns the constructed object (or the escaping exception) and the URLs
fetched. -/
def RideDetail.construct (tp : Transport) (oid : Json) :
    Except PyErr RideDetail × List String :=
  let url := "/rides/" ++ oid.pyStr
  match load tp url (some "ride") with
  | .ok a => (.ok ⟨oid, a⟩, [url])
  | .error e => (.error e, [url])

/-- Constructor `RideStream.__init__`: the single fetch `/streams/<oid>`, whole body. -/
def RideStream.construct (tp : Transport) (oid : Json) :
    Except PyErr RideStream × List String :=
  let url := "/streams/" ++ oid.pyStr
  match load tp url none with
  | .ok a => (.ok ⟨oid, a⟩, [url])
  | .error e => (.error e, [url])

/-- Constructor `Segment.__init__(attr)`: reads `attr["id"]`, `attr["segment"]`,
`attr["elapsed_time"]` in that order; a missing key raises `KeyError`. -/
def Segment.construct (attr : Json) : Except PyErr Segment := do
  let i ← attr.getItem "id"
  let s ← attr.getItem "segment"
  let t ← attr.getItem "elapsed_time"
  .ok ⟨i, s, t, none⟩

/-- Constructor `SegmentDetail.__init__(segment_id, effort_id)`: two fetches, effort
first; either failure propagates and aborts construction. -/
def SegmentDetail.construct (tp : Transport) (segment_id effort_id : Json) :
    Except PyErr SegmentDetail × List String :=
  let effortUrl := "/efforts/" ++ effort_id.pyStr
  let segmentUrl := "/segments/" ++ segment_id.pyStr
  match load tp effortUrl (some "effort") with
  | .error e => (.error e, [effortUrl])
  | .ok ea =>
      match load tp segmentUrl (some "segment") with
      | .error e => (.error e, [effortUrl, segmentUrl])
      | .ok sa => (.ok ⟨segment_id, ea, sa⟩, [effortUrl, segmentUrl])

/-- The `Ride.detail` property: memoized on `det` (`if not self._detail`).
Returns the detail, the updated ride, and the URLs fetched. -/
def Ride.detailAccess (tp : Transport) (r : Ride) :
    Except PyErr RideDetail × Ride × List String :=
  match r.det with
  | some d => (.ok d, r, [])
  | none =>
      match RideDetail.construct tp r.oid with
      | (.ok d, log) => (.ok d, { r with det := some d }, log)
      | (.error e, log) => (.error e, r, log)

/-- The `Ride.stream` property: memoized on `strm`. -/
def Ride.streamAccess (tp : Transport) (r : Ride) :
    Except PyErr RideStream × Ride × List String :=
  match r.strm with
  | some s => (.ok s, r, [])
  | none =>
      match RideStream.construct tp r.oid with
      | (.ok s, log) => (.ok s, { r with strm := some s }, log)
      | (.error e, log) => (.error e, r, log)

/-- The loop body of `Ride.segments`: appends `Segment(effort)` for each
listing entry to the accumulator; a failing construction stops the loop,
keeping the entries appended so far (Python mutates `self._segments` in
place). -/
def appendSegments (acc : List Segment) :
    List Json → List Segment × Option PyErr
  | [] => (acc, none)
  | e :: rest =>
      match Segment.construct e with
      | .ok s => appendSegments (acc ++ [s]) rest
      | .error err => (acc, some err)

/-- Python `for effort in v` over a decoded value: lists iterate elements,
dicts iterate their keys, strings iterate single-character strings, other
values raise `TypeError`. -/
def Json.iterate : Json → Except PyErr (List Json)
  | .arr xs => .ok xs
  | .obj kvs => .ok (kvs.map fun kv => .str kv.1)
  | .str s => .ok (s.toList.map fun c => .str (String.mk [c]))
  | _ => .error (.typeError "value is not iterable")

/-- The `Ride.segments` property. `if not self._segments` makes the empty
list double as the not-yet-loaded sentinel, so an empty (or failed) load
leaves the object in a state that re-fetches on the next access. -/
def Ride.segmentsAccess (tp : Transport) (r : Ride) :
    Except PyErr (List Segment) × Ride × List String :=
  match r.segs with
  | _ :: _ => (.ok r.segs, r, [])
  | [] =>
      let url := "/rides/" ++ r.oid.pyStr ++ "/efforts"
      match load tp url (some "efforts") with
      | .error e => (.error e, r, [url])
      | .ok j =>
          match j.iterate with
          | .error e => (.error e, r, [url])
          | .ok efforts =>
              match appendSegments [] efforts with
              | (segs, none) => (.ok segs, { r with segs := segs }, [url])
              | (segs, some e) => (.error e, { r with segs := segs }, [url])

/-- The `Segment.detail` property: memoized on `det`; a fresh access reads
the route id from the embedded segment object, then constructs
`SegmentDetail(route_id, effort_id)`. -/
def Segment.detailAccess (tp : Transport) (sg : Segment) :
    Except PyErr SegmentDetail × Segment × List String :=
  match sg.det with
  | some d => (.ok d, sg, [])
  | none =>
      match sg.seg.getItem "id" with
      | .error e => (.error e, sg, [])
      | .ok sid =>
          match SegmentDetail.construct tp sid sg.oid with
          | (.ok d, log) => (.ok d, { sg with det := some d }, log)
          | (.error e, log) => (.error e, sg, log)

/-- The loop body of `Athlete.rides`: `Ride(ride["id"], ride["name"])` for
each listing entry; the output list is local, so a mid-loop `KeyError` is
raised and the partial list discarded. -/
def ridesOfListing : List Json → Except PyErr (List Ride)
  | [] => .ok []
  | e :: rest => do
      let i ← e.getItem "id"
      let n ← e.getItem "name"
      let out ← ridesOfListing rest
      .ok (⟨i, n, none, [], none⟩ :: out)

/-- Method `Athlete.rides(start_date)`: fetches the listing URL (with
`&startDate=` appended when a date is given) keyed `"rides"` and maps the
entries to fresh `Ride`s.  Never cached: each call re-fetches. -/
def Athlete.rides (tp : Transport) (a : Athlete) (start_date : Option Date) :
    Except PyErr (List Ride) × List String :=
  let url := match start_date with
    | some d => a.url ++ "&startDate=" ++ d.isoformat
    | none => a.url
  match load tp url (some "rides") with
  | .error e => (.error e, [url])
  | .ok j =>
      match j.iterate with
      | .error e => (.error e, [url])
      | .ok entries => (ridesOfListing entries, [url])

/-- Method `Athlete.ride(ride_id)`: first listing entry whose `id ==` the argument;
`None` when no entry matches. -/
def Athlete.ride (tp : Transport) (a : Athlete) (ride_id : Json) :
    Except PyErr (Option Ride) × List String :=
  match a.rides tp none with
  | (.error e, log) => (.error e, log)
  | (.ok rs, log) => (.ok (rs.find? fun r => r.oid == ride_id), log)

/-- The `defaultdict(float)` built by `ride_stats`, read as a total mapping
(absent keys read as zero). -/
structure Stats where
  rides : Int
  moving_time : Int
  distance : Int
deriving Repr, DecidableEq

/-- Python `float + value` for a decoded JSON value: numbers add, booleans
coerce to 0/1, anything else raises `TypeError`. -/
def floatAdd (acc : Int) (v : Json) : Except PyErr Int :=
  match v with
  | .num n => .ok (acc + n)
  | .bool b => .ok (acc + (if b then 1 else 0))
  | _ => .error (.typeError "unsupported operand type for +")

/-- The loop of `Athlete.ride_stats`: per ride, increment the count, then
`ride.detail.moving_time` (first `detail` access fetches) and
`ride.detail.distance` (second access hits the memo). -/
def statsLoop (tp : Transport) : List Ride → Stats →
    Except PyErr Stats × List String
  | [], s => (.ok s, [])
  | r :: rest, s =>
      let s := { s with rides := s.rides + 1 }
      match Ride.detailAccess tp r with
      | (.error e, _, log) => (.error e, log)
      | (.ok d1, r1, log1) =>
          match (d1.attr.getItem "movingTime").bind (floatAdd s.moving_time) with
          | .error e => (.error e, log1)
          | .ok mt =>
              match Ride.detailAccess tp r1 with
              | (.error e, _, log2) => (.error e, log1 ++ log2)
              | (.ok d2, _, log2) =>
                  match (d2.attr.getItem "distance").bind (floatAdd s.distance) with
                  | .error e => (.error e, log1 ++ log2)
                  | .ok ds =>
                      match statsLoop tp rest
                          { s with moving_time := mt, distance := ds } with
                      | (res, log3) => (res, log1 ++ log2 ++ log3)

/-- Method `Athlete.ride_stats(days)`: start date is today minus `days`
(`date.today()` is the injected `today` parameter), then the accumulation
loop over the listed rides. -/
def Athlete.ride_stats (tp : Transport) (today : Date) (a : Athlete)
    (days : Int) : Except PyErr Stats × List String :=
  let start := today.subDays days
  match a.rides tp (some start) with
  | (.error e, log) => (.error e, log)
  | (.ok rs, log) =>
      match statsLoop tp rs ⟨0, 0, 0⟩ with
      | (res, log2) => (res, log ++ log2)

/-- Python substring test `needle in hay` on strings. -/
def strContains (hay needle : String) : Bool :=
  (List.range (hay.toList.length + 1)).any fun i =>
    ((hay.toList.drop i).take needle.toList.length) == needle.toList

/-- Method `RideStream.__try_get_values(key)`: `if key in self._attr` then
subscript else `[]`.  On a dict snapshot this never fails; when the decoded
stream body is a list or string, a successful `in` test is followed by a
string subscript, which raises `TypeError`; `in` itself raises `TypeError`
on non-container values. -/
def tryGetValues (attr : Json) (key : String) : Except PyErr Json :=
  match attr with
  | .obj kvs =>
      match lookupKV kvs key with
      | some v => .ok v
      | none => .ok (.arr [])
  | .arr xs =>
      if xs.contains (.str key) then
        .error (.typeError "list indices must be integers")
      else .ok (.arr [])
  | .str s =>
      if strContains s key then
        .error (.typeError "string indices must be integers")
      else .ok (.arr [])
  | _ => .error (.typeError "argument is not iterable")

/-- Property `RideStream.altitude`. -/
def RideStream.altitude (s : RideStream) : Except PyErr Json :=
  tryGetValues s.attr "altitude"

/-- Property `RideStream.altitude_original` — note the misspelled lookup key
`"altitiude_original"`, exactly as in the source. -/
def RideStream.altitude_original (s : RideStream) : Except PyErr Json :=
  tryGetValues s.attr "altitiude_original"

/-- Property `RideStream.cadence`. -/
def RideStream.cadence (s : RideStream) : Except PyErr Json :=
  tryGetValues s.attr "cadence"

/-- Property `RideStream.distance`. -/
def RideStream.distance (s : RideStream) : Except PyErr Json :=
  tryGetValues s.attr "distance"

/-- Property `RideStream.grade_smooth`. -/
def RideStream.grade_smooth (s : RideStream) : Except PyErr Json :=
  tryGetValues s.attr "grade_smooth"

/-- Property `RideStream.heartrate`. -/
def RideStream.heartrate (s : RideStream) : Except PyErr Json :=
  tryGetValues s.attr "heartrate"

/-- Property `RideStream.latlng`. -/
def RideStream.latlng (s : RideStream) : Except PyErr Json :=
  tryGetValues s.attr "latlng"

/-- Property `RideStream.moving`. -/
def RideStream.moving (s : RideStream) : Except PyErr Json :=
  tryGetValues s.attr "moving"

/-- Property `RideStream.outlier`. -/
def RideStream.outlier (s : RideStream) : Except PyErr Json :=
  tryGetValues s.attr "outlier"

/-- Property `RideStream.resting`. -/
def RideStream.resting (s : RideStream) : Except PyErr Json :=
  tryGetValues s.attr "resting"

/-- Property `RideStream.temp`. -/
def RideStream.temp (s : RideStream) : Except PyErr Json :=
  tryGetValues s.attr "temp"

/-- Property `RideStream.time`. -/
def RideStream.time (s : RideStream) : Except PyErr Json :=
  tryGetValues s.attr "time"

/-- Property `RideStream.total_elevation`. -/
def RideStream.total_elevation (s : RideStream) : Except PyErr Json :=
  tryGetValues s.attr "total_elevation"

/-- Property `RideStream.watts_calc`. -/
def RideStream.watts_calc (s : RideStream) : Except PyErr Json :=
  tryGetValues s.attr "watts_calc"

/-- Property `RideStream.velocity_smooth`. -/
def RideStream.velocity_smooth (s : RideStream) : Except PyErr Json :=
  tryGetValues s.attr "velocity_smooth"

/-- Property `RideStream.raw_data`: the full decoded snapshot. -/
def RideStream.raw_data (s : RideStream) : Json := s.attr

/-- Property `RideDetail.athlete`: `self._attr["athlete"]["name"]`. -/
def RideDetail.athlete (d : RideDetail) : Except PyErr Json :=
  (d.attr.getItem "athlete").bind fun a => a.getItem "name"

/-- Property `RideDetail.athlete_id`: `self._attr["athlete"]["id"]`. -/
def RideDetail.athlete_id (d : RideDetail) : Except PyErr Json :=
  (d.attr.getItem "athlete").bind fun a => a.getItem "id"

/-- Property `RideDetail.bike`: `self._attr["bike"]["name"]`. -/
def RideDetail.bike (d : RideDetail) : Except PyErr Json :=
  (d.attr.getItem "bike").bind fun b => b.getItem "name"

/-- Property `RideDetail.bike_id`: `self._attr["bike"]["id"]`. -/
def RideDetail.bike_id (d : RideDetail) : Except PyErr Json :=
  (d.attr.getItem "bike").bind fun b => b.getItem "id"

/-- Property `RideDetail.location`: `self._attr["location"]`. -/
def RideDetail.location (d : RideDetail) : Except PyErr Json :=
  d.attr.getItem "location"

/-- Property `RideDetail.distance`: `self._attr["distance"]`. -/
def RideDetail.distance (d : RideDetail) : Except PyErr Json :=
  d.attr.getItem "distance"

/-- Property `RideDetail.moving_time`: `self._attr["movingTime"]`. -/
def RideDetail.moving_time (d : RideDetail) : Except PyErr Json :=
  d.attr.getItem "movingTime"

/-- Behaviour of one named stream accessor `f` with lookup key `k` on a
dict snapshot `kvs`: an absent key reads as the empty list, a present key
reads as the stored value — in particular the accessor never raises. -/
def accessorSpec (f : RideStream → Except PyErr Json) (k : String)
    (s : RideStream) (kvs : List (String × Json)) : Prop :=
  (lookupKV kvs k = none → f s = .ok (.arr [])) ∧
  ∀ v, lookupKV kvs k = some v → f s = .ok v

/-- Any accessor defined as `__try_get_values` at a fixed key satisfies
`accessorSpec` on a dict snapshot. -/
theorem accessorSpec_of (f : RideStream → Except PyErr Json) (k : String)
    (s : RideStream) (kvs : List (String × Json)) (h : s.attr = .obj kvs)
    (hf : f s = tryGetValues s.attr k) : accessorSpec f k s kvs := by
  constructor
  · intro hn; rw [hf, h]; simp [tryGetValues, hn]
  · intro v hv; rw [hf, h]; simp [tryGetValues, hv]

/-- Behaviour of a single-level `RideDetail` accessor `f` at key `k`:
present keys project the stored value, a missing key raises `KeyError`. -/
def flatSpec (f : RideDetail → Except PyErr Json) (k : String)
    (d : RideDetail) (kvs : List (String × Json)) : Prop :=
  (∀ v, lookupKV kvs k = some v → f d = .ok v) ∧
  (lookupKV kvs k = none → f d = .error (.keyError k))

/-- Behaviour of a two-level `RideDetail` accessor `f` at path `k₁.k₂`:
the nested value is projected when both keys are present, and a missing
key at either level raises `KeyError` for that key. -/
def nestedSpec (f : RideDetail → Except PyErr Json) (k₁ k₂ : String)
    (d : RideDetail) (kvs : List (String × Json)) : Prop :=
  (∀ akvs v, lookupKV kvs k₁ = some (.obj akvs) →
      lookupKV akvs k₂ = some v → f d = .ok v) ∧
  (lookupKV kvs k₁ = none → f d = .error (.keyError k₁)) ∧
  (∀ akvs, lookupKV kvs k₁ = some (.obj akvs) →
      lookupKV akvs k₂ = none → f d = .error (.keyError k₂))

/-- Any accessor defined as a single dict subscription satisfies
`flatSpec`. -/
theorem flatSpec_of (f : RideDetail → Except PyErr Json) (k : String)
    (d : RideDetail) (kvs : List (String × Json)) (h : d.attr = .obj kvs)
    (hf : f d = d.attr.getItem k) : flatSpec f k d kvs := by
  constructor
  · intro v hv; rw [hf, h]; simp [Json.getItem, hv]
  · intro hn; rw [hf, h]; simp [Json.getItem, hn]

/-- Any accessor defined as two chained dict subscriptions satisfies
`nestedSpec`. -/
theorem nestedSpec_of (f : RideDetail → Except PyErr Json) (k₁ k₂ : String)
    (d : RideDetail) (kvs : List (String × Json)) (h : d.attr = .obj kvs)
    (hf : f d = (d.attr.getItem k₁).bind fun a => a.getItem k₂) :
    nestedSpec f k₁ k₂ d kvs := by
  refine ⟨?_, ?_, ?_⟩
  · intro akvs v h1 h2; rw [hf, h]; simp [Json.getItem, Except.bind, h1, h2]
  · intro hn; rw [hf, h]; simp [Json.getItem, Except.bind, hn]
  · intro akvs h1 h2; rw [hf, h]; simp [Json.getItem, Except.bind, h1, h2]

/-- C2: on every `RideStream` dict snapshot, each named series accessor
returns the stored sequence when its key is present and the empty sequence
when the key is absent, never raising. -/
theorem stream_accessors_default_empty (s : RideStream)
    (kvs : List (String × Json)) (h : s.attr = .obj kvs) :
    accessorSpec RideStream.altitude "altitude" s kvs ∧
    accessorSpec RideStream.cadence "cadence" s kvs ∧
    accessorSpec RideStream.distance "distance" s kvs ∧
    accessorSpec RideStream.grade_smooth "grade_smooth" s kvs ∧
    accessorSpec RideStream.heartrate "heartrate" s kvs ∧
    accessorSpec RideStream.latlng "latlng" s kvs ∧
    accessorSpec RideStream.moving "moving" s kvs ∧
    accessorSpec RideStream.outlier "outlier" s kvs ∧
    accessorSpec RideStream.resting "resting" s kvs ∧
    accessorSpec RideStream.temp "temp" s kvs ∧
    accessorSpec RideStream.time "time" s kvs ∧
    accessorSpec RideStream.total_elevation "total_elevation" s kvs ∧
    accessorSpec RideStream.watts_calc "watts_calc" s kvs ∧
    accessorSpec RideStream.velocity_smooth "velocity_smooth" s kvs :=
  ⟨accessorSpec_of _ _ _ _ h rfl, accessorSpec_of _ _ _ _ h rfl,
   accessorSpec_of _ _ _ _ h rfl, accessorSpec_of _ _ _ _ h rfl,
   accessorSpec_of _ _ _ _ h rfl, accessorSpec_of _ _ _ _ h rfl,
   accessorSpec_of _ _ _ _ h rfl, accessorSpec_of _ _ _ _ h rfl,
   accessorSpec_of _ _ _ _ h rfl, accessorSpec_of _ _ _ _ h rfl,
   accessorSpec_of _ _ _ _ h rfl, accessorSpec_of _ _ _ _ h rfl,
   accessorSpec_of _ _ _ _ h rfl, accessorSpec_of _ _ _ _ h rfl⟩

/-- Concrete stream snapshot for the C2 witness: only `altitude` present. -/
def streamW2 : RideStream :=
  ⟨.num 1, .obj [("altitude", .arr [.num 10, .num 20, .num 30])]⟩

/-- Witness for C2, at the spec's own example: on the snapshot
`{"altitude": [10, 20, 30]}` the `cadence` accessor yields `[]` and the
`altitude` accessor yields `[10, 20, 30]`. -/
theorem stream_accessors_default_empty_witness :
    RideStream.cadence streamW2 = .ok (.arr []) ∧
    RideStream.altitude streamW2 = .ok (.arr [.num 10, .num 20, .num 30]) :=
  ⟨(stream_accessors_default_empty streamW2 _ rfl).2.1.1 rfl,
   (stream_accessors_default_empty streamW2 _ rfl).1.2 _ rfl⟩

/-- C8: the `altitude_original` accessor looks up the literally misspelled
key `"altitiude_original"`: that key absent (even with the correctly
spelled one present) reads as the empty sequence, that key present reads
as its stored value. -/
theorem altitude_original_misspelled_key (s : RideStream)
    (kvs : List (String × Json)) (h : s.attr = .obj kvs) :
    (lookupKV kvs "altitiude_original" = none →
      s.altitude_original = .ok (.arr [])) ∧
    ∀ v, lookupKV kvs "altitiude_original" = some v →
      s.altitude_original = .ok v :=
  accessorSpec_of RideStream.altitude_original "altitiude_original" s kvs h rfl

/-- Concrete snapshot holding only the correctly spelled key. -/
def streamW8a : RideStream :=
  ⟨.num 1, .obj [("altitude_original", .arr [.num 1])]⟩

/-- Concrete snapshot holding only the misspelled key. -/
def streamW8b : RideStream :=
  ⟨.num 1, .obj [("altitiude_original", .arr [.num 2])]⟩

/-- Witness for C8: the correctly spelled key yields the empty sequence,
the misspelled key yields its value. -/
theorem altitude_original_misspelled_key_witness :
    RideStream.altitude_original streamW8a = .ok (.arr []) ∧
    RideStream.altitude_original streamW8b = .ok (.arr [.num 2]) :=
  ⟨(altitude_original_misspelled_key streamW8a _ rfl).1 rfl,
   (altitude_original_misspelled_key streamW8b _ rfl).2 _ rfl⟩

/-- C9: every `RideDetail` accessor projects its fixed path out of the
snapshot (`athlete` → `athlete.name`, `athlete_id` → `athlete.id`,
`bike` → `bike.name`, `bike_id` → `bike.id`, `location`, `distance`, and
`moving_time` from source key `movingTime`); a missing expected key raises
`KeyError` instead of defaulting. -/
theorem rideDetail_fixed_projections (d : RideDetail)
    (kvs : List (String × Json)) (h : d.attr = .obj kvs) :
    nestedSpec RideDetail.athlete "athlete" "name" d kvs ∧
    nestedSpec RideDetail.athlete_id "athlete" "id" d kvs ∧
    nestedSpec RideDetail.bike "bike" "name" d kvs ∧
    nestedSpec RideDetail.bike_id "bike" "id" d kvs ∧
    flatSpec RideDetail.location "location" d kvs ∧
    flatSpec RideDetail.distance "distance" d kvs ∧
    flatSpec RideDetail.moving_time "movingTime" d kvs :=
  ⟨nestedSpec_of _ _ _ _ _ h rfl, nestedSpec_of _ _ _ _ _ h rfl,
   nestedSpec_of _ _ _ _ _ h rfl, nestedSpec_of _ _ _ _ _ h rfl,
   flatSpec_of _ _ _ _ h rfl, flatSpec_of _ _ _ _ h rfl,
   flatSpec_of _ _ _ _ h rfl⟩

/-- Concrete ride-detail snapshot for the C9 witness: nested athlete
record and `movingTime` present, `distance` absent. -/
def detailW9 : RideDetail :=
  ⟨.num 7, .obj [("athlete", .obj [("name", .str "A"), ("id", .num 1)]),
                 ("movingTime", .num 100)]⟩

/-- Witness for C9: nested projection, flat projection, and the `KeyError`
on a missing key, at a concrete snapshot. -/
theorem rideDetail_fixed_projections_witness :
    RideDetail.athlete detailW9 = .ok (.str "A") ∧
    RideDetail.moving_time detailW9 = .ok (.num 100) ∧
    RideDetail.distance detailW9 = .error (.keyError "distance") :=
  ⟨(rideDetail_fixed_projections detailW9 _ rfl).1.1 _ _ rfl rfl,
   (rideDetail_fixed_projections detailW9 _ rfl).2.2.2.2.2.2.1 _ rfl,
   (rideDetail_fixed_projections detailW9 _ rfl).2.2.2.2.2.1.2 rfl⟩

/-- C1: a fresh `Ride.detail` access performs exactly the one fetch of
`/rides/<id>`, and the access after it returns the identical memoized
`RideDetail` with no fetch and no state change. -/
theorem ride_detail_fetched_once (tp : Transport) (r : Ride) (d : RideDetail)
    (r₁ : Ride) (log : List String) (hfresh : r.det = none)
    (h : Ride.detailAccess tp r = (.ok d, r₁, log)) :
    log = ["/rides/" ++ r.oid.pyStr] ∧
    Ride.detailAccess tp r₁ = (.ok d, r₁, []) := by
  cases hld : load tp ("/rides/" ++ r.oid.pyStr) (some "ride") with
  | error e =>
      simp [Ride.detailAccess, RideDetail.construct, hfresh, hld] at h
  | ok a =>
      simp [Ride.detailAccess, RideDetail.construct, hfresh, hld] at h
      obtain ⟨hd, hr, hlog⟩ := h
      subst hd; subst hr; subst hlog
      exact ⟨rfl, by simp [Ride.detailAccess]⟩

/-- Transport double for the C1 witness: one ride detail available. -/
def tpW1 : Transport := fun url =>
  if url = "/rides/7" then
    .body (some (.obj [("ride", .obj [("distance", .num 5)])]))
  else .urlError "unreachable"

/-- A freshly listed ride (no sub-resources loaded). -/
def rideW1 : Ride := ⟨.num 7, .str "Loop", none, [], none⟩

/-- The same ride after its detail was fetched from `tpW1`. -/
def rideW1' : Ride :=
  ⟨.num 7, .str "Loop", some ⟨.num 7, .obj [("distance", .num 5)]⟩, [], none⟩

/-- Witness for C1 at a concrete ride and transport double. -/
theorem ride_detail_fetched_once_witness :
    ["/rides/7"] = ["/rides/" ++ rideW1.oid.pyStr] ∧
    Ride.detailAccess tpW1 rideW1' =
      (.ok ⟨.num 7, .obj [("distance", .num 5)]⟩, rideW1', []) :=
  ride_detail_fetched_once tpW1 rideW1 ⟨.num 7, .obj [("distance", .num 5)]⟩
    rideW1' ["/rides/7"] rfl rfl

/-- C7: with the empty list doubling as the not-yet-loaded sentinel, a
successful `Ride.segments` access that yields the empty sequence leaves the
ride in its original state — so the next access re-fetches `/rides/<id>/efforts`
— while a non-empty result is memoized and returned with no further fetch. -/
theorem ride_segments_empty_refetch (tp : Transport) (r : Ride)
    (efforts : List Json) (hfresh : r.segs = [])
    (hload : load tp ("/rides/" ++ r.oid.pyStr ++ "/efforts") (some "efforts")
      = .ok (.arr efforts)) :
    (efforts = [] →
      Ride.segmentsAccess tp r =
        (.ok [], r, ["/rides/" ++ r.oid.pyStr ++ "/efforts"])) ∧
    ∀ segs r₁ log, Ride.segmentsAccess tp r = (.ok segs, r₁, log) →
      segs ≠ [] → Ride.segmentsAccess tp r₁ = (.ok segs, r₁, []) := by
  obtain ⟨oid, name, det, segs0, strm⟩ := r
  simp only at hfresh
  subst hfresh
  constructor
  · rintro rfl
    simp [Ride.segmentsAccess, hload, Json.iterate, appendSegments]
  · intro segs r₁ log h hne
    cases hap : appendSegments [] efforts with
    | mk segs' opt =>
      cases opt with
      | none =>
          simp [Ride.segmentsAccess, hload, Json.iterate, hap] at h
          obtain ⟨h1, h2, h3⟩ := h
          subst h1; subst h2
          cases segs' with
          | nil => simp_all
          | cons s ss => simp [Ride.segmentsAccess]
      | some e =>
          simp [Ride.segmentsAccess, hload, Json.iterate, hap] at h

/-- Transport double for the C7 witness: an empty efforts listing. -/
def tpW7 : Transport := fun url =>
  if url = "/rides/7/efforts" then .body (some (.obj [("efforts", .arr [])]))
  else .urlError "unreachable"

/-- Transport double for the C7 witness: a one-entry efforts listing. -/
def tpW7b : Transport := fun url =>
  if url = "/rides/7/efforts" then
    .body (some (.obj [("efforts", .arr
      [.obj [("id", .num 9),
             ("segment", .obj [("name", .str "S"), ("id", .num 4)]),
             ("elapsed_time", .num 60)]])]))
  else .urlError "unreachable"

/-- The segment parsed from the one-entry listing of `tpW7b`. -/
def segW7 : Segment :=
  ⟨.num 9, .obj [("name", .str "S"), ("id", .num 4)], .num 60, none⟩

/-- Witness for C7: the empty listing leaves the ride unchanged (so the
next access re-fetches), and a non-empty memoized result is served with no
fetch. -/
theorem ride_segments_empty_refetch_witness :
    Ride.segmentsAccess tpW7 rideW1 = (.ok [], rideW1, ["/rides/7/efforts"]) ∧
    Ride.segmentsAccess tpW7b ⟨.num 7, .str "Loop", none, [segW7], none⟩ =
      (.ok [segW7], ⟨.num 7, .str "Loop", none, [segW7], none⟩, []) :=
  ⟨(ride_segments_empty_refetch tpW7 rideW1 [] rfl rfl).1 rfl,
   (ride_segments_empty_refetch tpW7b rideW1
      [.obj [("id", .num 9),
             ("segment", .obj [("name", .str "S"), ("id", .num 4)]),
             ("elapsed_time", .num 60)]] rfl rfl).2
     [segW7] ⟨.num 7, .str "Loop", none, [segW7], none⟩ ["/rides/7/efforts"]
     rfl (by simp)⟩

/-- C6: `Athlete.ride` fetches the unfiltered listing (no start date) and
returns the first listed ride whose id compares equal to the argument;
when no entry matches it returns `None`, not an error. -/
theorem athlete_ride_first_match (tp : Transport) (a : Athlete)
    (ride_id : Json) (rs : List Ride) (log : List String)
    (h : a.rides tp none = (.ok rs, log)) :
    Athlete.ride tp a ride_id =
      (.ok (rs.find? fun r => r.oid == ride_id), log) ∧
    ((∀ r ∈ rs, (r.oid == ride_id) = false) →
      Athlete.ride tp a ride_id = (.ok none, log)) := by
  refine ⟨by simp [Athlete.ride, h], fun hall => ?_⟩
  have hnone : (rs.find? fun r => r.oid == ride_id) = none :=
    List.find?_eq_none.mpr (by simpa using hall)
  simp [Athlete.ride, h, hnone]

/-- Transport double for the C6 witness: a single listed ride with id 7. -/
def tpW6 : Transport := fun url =>
  if url = "/rides?athleteId=3" then
    .body (some (.obj [("rides",
      .arr [.obj [("id", .num 7), ("name", .str "Loop")]])]))
  else .urlError "unreachable"

/-- Witness for C6: querying an id absent from the listing returns `None`
(and no error). -/
theorem athlete_ride_first_match_witness :
    Athlete.ride tpW6 (Athlete.make (.num 3)) (.num 8) =
      (.ok none, ["/rides?athleteId=3"]) :=
  (athlete_ride_first_match tpW6 (Athlete.make (.num 3)) (.num 8)
      [⟨.num 7, .str "Loop", none, [], none⟩] ["/rides?athleteId=3"] rfl).2
    (by intro r hr; simp at hr; subst hr; rfl)

/-- C5: a fresh `Segment.detail` access constructs `SegmentDetail` with the
two fetches `/efforts/<effortId>` (keyed `"effort"`) then
`/segments/<routeId>` (keyed `"segment"`); if either fetch fails, the
failure propagates and the segment's cached field stays unpopulated, so no
partially constructed detail is observable. -/
theorem segment_detail_two_fetches_atomic (tp : Transport) (sg : Segment)
    (sid : Json) (hfresh : sg.det = none)
    (hid : sg.seg.getItem "id" = .ok sid) :
    (∀ ea sa,
      load tp ("/efforts/" ++ sg.oid.pyStr) (some "effort") = .ok ea →
      load tp ("/segments/" ++ sid.pyStr) (some "segment") = .ok sa →
      Segment.detailAccess tp sg =
        (.ok ⟨sid, ea, sa⟩, { sg with det := some ⟨sid, ea, sa⟩ },
         ["/efforts/" ++ sg.oid.pyStr, "/segments/" ++ sid.pyStr])) ∧
    (∀ e, load tp ("/efforts/" ++ sg.oid.pyStr) (some "effort") = .error e →
      Segment.detailAccess tp sg =
        (.error e, sg, ["/efforts/" ++ sg.oid.pyStr])) ∧
    (∀ ea e,
      load tp ("/efforts/" ++ sg.oid.pyStr) (some "effort") = .ok ea →
      load tp ("/segments/" ++ sid.pyStr) (some "segment") = .error e →
      Segment.detailAccess tp sg =
        (.error e, sg,
         ["/efforts/" ++ sg.oid.pyStr, "/segments/" ++ sid.pyStr])) := by
  refine ⟨?_, ?_, ?_⟩ <;> intros <;>
    simp [Segment.detailAccess, SegmentDetail.construct, hfresh, hid, *]

/-- Transport double for the C5 witness: the effort fetch succeeds, the
segment fetch fails with an HTTP error. -/
def tpW5 : Transport := fun url =>
  if url = "/efforts/9" then
    .body (some (.obj [("effort", .obj [("elapsedTime", .num 60)])]))
  else if url = "/segments/4" then .httpError "HTTP Error 500"
  else .urlError "unreachable"

/-- Witness for C5, at the spec's own scenario: effort fetch succeeds,
segment fetch fails, the whole construction fails and the segment keeps
its unpopulated cache field. -/
theorem segment_detail_two_fetches_atomic_witness :
    Segment.detailAccess tpW5 segW7 =
      (.error (.apiError "/segments/4: request failed: HTTP Error 500"),
       segW7, ["/efforts/9", "/segments/4"]) :=
  (segment_detail_two_fetches_atomic tpW5 segW7 (.num 4) rfl rfl).2.2
    (.obj [("elapsedTime", .num 60)])
    (.apiError "/segments/4: request failed: HTTP Error 500") rfl rfl

/-- A transport whose every request fails at the connection level. -/
def tpDown : Transport := fun _ => .urlError "connection refused"

/-- Counterexample to C3: on a connection-level network failure (`URLError`),
`load` raises that `URLError` unchanged — `load` only catches `HTTPError` —
so a transport failure can escape as an error kind other than the unified
`APIError`. -/
theorem load_network_failure_not_apiError :
    load tpDown "/rides/1" (some "ride")
      = .error (.urlError "connection refused") ∧
    ∀ m, PyErr.urlError "connection refused" ≠ .apiError m :=
  ⟨rfl, fun _ h => PyErr.noConfusion h⟩

/-- C3 (amended): `load` wraps HTTP error statuses, JSON decode failures,
and a missing `resultKey` in a decoded top-level mapping into the unified
`APIError` carrying the requested path and a cause description; present
keys (and keyless loads) succeed.  However a connection-level `URLError`
escapes unchanged, and a decoded non-mapping body subscripted with a
`resultKey` escapes as a `TypeError`; those two kinds are not unified. -/
theorem load_error_taxonomy (tp : Transport) (url k : String) :
    (∀ m, tp url = .httpError m →
      load tp url (some k) =
        .error (.apiError (url ++ ": request failed: " ++ m))) ∧
    (tp url = .body none →
      load tp url (some k) =
        .error (.apiError (url ++ ": parsing response failed: ValueError"))) ∧
    (∀ kvs, tp url = .body (some (.obj kvs)) → lookupKV kvs k = none →
      load tp url (some k) =
        .error (.apiError
          (url ++ ": parsing response failed: KeyError: " ++ k))) ∧
    (∀ kvs v, tp url = .body (some (.obj kvs)) → lookupKV kvs k = some v →
      load tp url (some k) = .ok v) ∧
    (∀ j, tp url = .body (some j) → load tp url none = .ok j) ∧
    (∀ m, tp url = .urlError m →
      load tp url (some k) = .error (.urlError m)) ∧
    (∀ xs, tp url = .body (some (.arr xs)) →
      load tp url (some k) =
        .error (.typeError "value is not subscriptable by a string key")) := by
  refine ⟨?_, ?_, ?_, ?_, ?_, ?_, ?_⟩ <;> intros <;> simp [load, *]

/-- Transport double for the C3 witness: a 404 on the requested path. -/
def tpW3 : Transport := fun url =>
  if url = "/rides/1" then .httpError "HTTP Error 404: Not Found"
  else .body none

/-- Witness for C3 (amended), at the HTTP-status case: a non-2xx status is
wrapped into `APIError` with the requested path and cause. -/
theorem load_error_taxonomy_witness :
    load tpW3 "/rides/1" (some "ride") =
      .error (.apiError "/rides/1: request failed: HTTP Error 404: Not Found") :=
  (load_error_taxonomy tpW3 "/rides/1" "ride").1 "HTTP Error 404: Not Found" rfl

/-- C10: a listing entry missing an expected key makes the mapping loop
fail with a plain `KeyError` — not the unified `APIError` — although the
fetch itself succeeded: `Athlete.rides` requires `id` and `name` on each
rides entry, `Ride.segments` requires `id`, `segment` and `elapsed_time`
on each efforts entry. -/
theorem malformed_listing_entry_keyError (tp : Transport) (a : Athlete)
    (r : Ride) (kvs ekvs : List (String × Json)) (rest : List Json) :
    (tp a.url = .body (some (.obj kvs)) →
      lookupKV kvs "rides" = some (.arr (Json.obj ekvs :: rest)) →
      lookupKV ekvs "id" = none →
      a.rides tp none = (.error (.keyError "id"), [a.url])) ∧
    (∀ i, tp a.url = .body (some (.obj kvs)) →
      lookupKV kvs "rides" = some (.arr (Json.obj ekvs :: rest)) →
      lookupKV ekvs "id" = some i → lookupKV ekvs "name" = none →
      a.rides tp none = (.error (.keyError "name"), [a.url])) ∧
    (r.segs = [] →
      tp ("/rides/" ++ r.oid.pyStr ++ "/efforts") = .body (some (.obj kvs)) →
      lookupKV kvs "efforts" = some (.arr (Json.obj ekvs :: rest)) →
      lookupKV ekvs "id" = none →
      (Ride.segmentsAccess tp r).1 = .error (.keyError "id")) ∧
    (∀ i, r.segs = [] →
      tp ("/rides/" ++ r.oid.pyStr ++ "/efforts") = .body (some (.obj kvs)) →
      lookupKV kvs "efforts" = some (.arr (Json.obj ekvs :: rest)) →
      lookupKV ekvs "id" = some i → lookupKV ekvs "segment" = none →
      (Ride.segmentsAccess tp r).1 = .error (.keyError "segment")) ∧
    (∀ i sgv, r.segs = [] →
      tp ("/rides/" ++ r.oid.pyStr ++ "/efforts") = .body (some (.obj kvs)) →
      lookupKV kvs "efforts" = some (.arr (Json.obj ekvs :: rest)) →
      lookupKV ekvs "id" = some i → lookupKV ekvs "segment" = some sgv →
      lookupKV ekvs "elapsed_time" = none →
      (Ride.segmentsAccess tp r).1 = .error (.keyError "elapsed_time")) ∧
    (∀ key m, PyErr.keyError key ≠ .apiError m) := by
  refine ⟨?_, ?_, ?_, ?_, ?_, fun _ _ h => PyErr.noConfusion h⟩ <;> intros <;>
    simp [Athlete.rides, Ride.segmentsAccess, load, Json.iterate,
      ridesOfListing, appendSegments, Segment.construct, Json.getItem,
      Bind.bind, Except.instMonad, Except.bind, *]

/-- Transport double for the C10 witness: the one listed ride lacks the
`id` key. -/
def tpW10 : Transport := fun url =>
  if url = "/rides?athleteId=3" then
    .body (some (.obj [("rides", .arr [.obj [("name", .str "Loop")]])]))
  else .urlError "unreachable"

/-- Witness for C10: a rides-listing entry without `id` fails the mapping
with `KeyError "id"` even though the fetch succeeded. -/
theorem malformed_listing_entry_keyError_witness :
    (Athlete.make (.num 3)).rides tpW10 none =
      (.error (.keyError "id"), [(Athlete.make (.num 3)).url]) :=
  (malformed_listing_entry_keyError tpW10 (Athlete.make (.num 3)) rideW1
      [("rides", .arr [.obj [("name", .str "Loop")]])]
      [("name", .str "Loop")] []).1 rfl rfl rfl

/-- A listing whose every entry is well-formed (has `id` and `name`) and
whose every detail fetch returns `movingTime = M` and `distance = D` parses
into the same number of fresh rides, each satisfying the same per-ride
detail condition. -/
theorem ridesOfListing_uniform (tp : Transport) (M D : Int) :
    ∀ entries : List Json,
    (∀ e ∈ entries, ∃ i n dkvs,
      e.getItem "id" = .ok i ∧ e.getItem "name" = .ok n ∧
      load tp ("/rides/" ++ i.pyStr) (some "ride") = .ok (.obj dkvs) ∧
      lookupKV dkvs "movingTime" = some (.num M) ∧
      lookupKV dkvs "distance" = some (.num D)) →
    ∃ rs, ridesOfListing entries = .ok rs ∧ rs.length = entries.length ∧
      ∀ r ∈ rs, r.det = none ∧ ∃ dkvs,
        load tp ("/rides/" ++ r.oid.pyStr) (some "ride") = .ok (.obj dkvs) ∧
        lookupKV dkvs "movingTime" = some (.num M) ∧
        lookupKV dkvs "distance" = some (.num D) := by
  intro entries
  induction entries with
  | nil => intro _; exact ⟨[], rfl, rfl, by simp⟩
  | cons e rest ih =>
      intro hyp
      obtain ⟨i, n, dkvs, hid, hname, hld, hmt, hds⟩ :=
        hyp e (List.mem_cons_self e rest)
      obtain ⟨rs, hrs, hlen, hall⟩ :=
        ih fun x hx => hyp x (List.mem_cons_of_mem e hx)
      refine ⟨⟨i, n, none, [], none⟩ :: rs, ?_, by simp [hlen], ?_⟩
      · simp [ridesOfListing, Bind.bind, Except.instMonad, Except.bind,
          hid, hname, hrs]
      · intro r hr
        rcases List.mem_cons.mp hr with hhead | htail
        · subst hhead
          exact ⟨rfl, dkvs, hld, hmt, hds⟩
        · exact hall r htail

/-- The accumulation loop of `ride_stats` over fresh rides with uniform
detail responses: per ride, one detail fetch, then `moving_time` and
`distance` accumulate exactly once each. -/
theorem statsLoop_uniform (tp : Transport) (M D : Int) :
    ∀ (rs : List Ride) (s : Stats),
    (∀ r ∈ rs, r.det = none ∧ ∃ dkvs,
      load tp ("/rides/" ++ r.oid.pyStr) (some "ride") = .ok (.obj dkvs) ∧
      lookupKV dkvs "movingTime" = some (.num M) ∧
      lookupKV dkvs "distance" = some (.num D)) →
    statsLoop tp rs s =
      (.ok ⟨s.rides + rs.length, s.moving_time + rs.length * M,
            s.distance + rs.length * D⟩,
       rs.map fun r => "/rides/" ++ r.oid.pyStr) := by
  intro rs
  induction rs with
  | nil => intro s _; simp [statsLoop]
  | cons r rest ih =>
      intro s hyp
      obtain ⟨hdet, dkvs, hld, hmt, hds⟩ := hyp r (List.mem_cons_self r rest)
      have hrest := fun x hx => hyp x (List.mem_cons_of_mem r hx)
      have hacc : Ride.detailAccess tp r =
          (.ok ⟨r.oid, .obj dkvs⟩, { r with det := some ⟨r.oid, .obj dkvs⟩ },
           ["/rides/" ++ r.oid.pyStr]) := by
        simp [Ride.detailAccess, RideDetail.construct, hdet, hld]
      have hacc2 :
          Ride.detailAccess tp { r with det := some ⟨r.oid, .obj dkvs⟩ } =
          (.ok ⟨r.oid, .obj dkvs⟩, { r with det := some ⟨r.oid, .obj dkvs⟩ },
           []) := by
        simp [Ride.detailAccess]
      have hrec := ih ⟨s.rides + 1, s.moving_time + M, s.distance + D⟩ hrest
      simp only [statsLoop, hacc, hacc2, Json.getItem, hmt, hds,
        Except.bind, floatAdd, hrec]
      refine Prod.ext ?_ (by simp)
      simp only [Prod.fst]
      congr 1
      simp only [Stats.mk.injEq, List.length_cons]
      refine ⟨?_, ?_, ?_⟩ <;> push_cast <;> ring

/-- C4: when the listing for the window starting at today minus `days`
returns `K` well-formed rides and every ride's detail fetch reports
`movingTime = M` and `distance = D`, `ride_stats` returns the mapping
`rides = K`, `moving_time = K*M`, `distance = K*D`, accumulated from zero,
performing the listing fetch plus one detail fetch per ride. -/
theorem ride_stats_accumulates (tp : Transport) (today : Date) (a : Athlete)
    (days M D : Int) (entries : List Json)
    (hlist : load tp (a.url ++ "&startDate=" ++ (today.subDays days).isoformat)
        (some "rides") = .ok (.arr entries))
    (hdet : ∀ e ∈ entries, ∃ i n dkvs,
      e.getItem "id" = .ok i ∧ e.getItem "name" = .ok n ∧
      load tp ("/rides/" ++ i.pyStr) (some "ride") = .ok (.obj dkvs) ∧
      lookupKV dkvs "movingTime" = some (.num M) ∧
      lookupKV dkvs "distance" = some (.num D)) :
    ∃ log, Athlete.ride_stats tp today a days =
        (.ok ⟨entries.length, entries.length * M, entries.length * D⟩, log) ∧
      log.length = 1 + entries.length := by
  obtain ⟨rs, hrs, hlen, hall⟩ := ridesOfListing_uniform tp M D entries hdet
  have hloop := statsLoop_uniform tp M D rs ⟨0, 0, 0⟩ hall
  refine ⟨(a.url ++ "&startDate=" ++ (today.subDays days).isoformat) ::
      rs.map (fun r => "/rides/" ++ r.oid.pyStr), ?_, ?_⟩
  · simp [Athlete.ride_stats, Athlete.rides, hlist, Json.iterate, hrs,
      hloop, hlen]
  · simp [hlen, Nat.add_comm]

/-- The uniform ride-detail payload of the C4 transport double. -/
def detW4 : Json := .obj [("movingTime", .num 100), ("distance", .num 5)]

/-- Transport double for the C4 witness: two rides in the window, each with
`movingTime = 100` and `distance = 5`. -/
def tpW4 : Transport := fun url =>
  if url = "/rides?athleteId=3&startDate=3" then
    .body (some (.obj [("rides", .arr
      [.obj [("id", .num 7), ("name", .str "A")],
       .obj [("id", .num 8), ("name", .str "B")]])]))
  else if url = "/rides/7" then .body (some (.obj [("ride", detW4)]))
  else if url = "/rides/8" then .body (some (.obj [("ride", detW4)]))
  else .urlError "unreachable"

/-- Witness for C4: K = 2, M = 100, D = 5 gives rides 2, moving_time 200,
distance 10, in three fetches (one listing, one detail per ride). -/
theorem ride_stats_accumulates_witness :
    ∃ log, Athlete.ride_stats tpW4 ⟨10⟩ (Athlete.make (.num 3)) 7 =
        (.ok ⟨2, 200, 10⟩, log) ∧ log.length = 3 := by
  have hdet : ∀ e ∈ [Json.obj [("id", .num 7), ("name", .str "A")],
      Json.obj [("id", .num 8), ("name", .str "B")]], ∃ i n dkvs,
      e.getItem "id" = .ok i ∧ e.getItem "name" = .ok n ∧
      load tpW4 ("/rides/" ++ i.pyStr) (some "ride") = .ok (.obj dkvs) ∧
      lookupKV dkvs "movingTime" = some (.num 100) ∧
      lookupKV dkvs "distance" = some (.num 5) := by
    intro e he
    simp only [List.mem_cons, List.not_mem_nil, or_false] at he
    rcases he with rfl | rfl
    · exact ⟨.num 7, .str "A", [("movingTime", .num 100), ("distance", .num 5)],
        rfl, rfl, rfl, rfl, rfl⟩
    · exact ⟨.num 8, .str "B", [("movingTime", .num 100), ("distance", .num 5)],
        rfl, rfl, rfl, rfl, rfl⟩
  obtain ⟨log, h1, h2⟩ := ride_stats_accumulates tpW4 ⟨10⟩
    (Athlete.make (.num 3)) 7 100 5
    [.obj [("id", .num 7), ("name", .str "A")],
     .obj [("id", .num 8), ("name", .str "B")]] rfl hdet
  norm_num at h1 h2
  exact ⟨log, h1, h2⟩
